import Mathlib

/-!
# FlightPortal core verification

Shallow embedding of the FlightPortal polling/caching/decision engine
(`src/flight_logic.py`, `src/lga_client.py`, `src/main.py`, constants from
`src/config.py`) together with theorems settling the specification claims.

Conventions of the embedding:
* timestamps (`time.time()`) are modelled as `Int`;
* every network fetch is modelled by an oracle argument describing what the
  HTTP layer would deliver: `err` stands for an exception raised by
  `requests.get(...)` or by `.json()` (network error or malformed body),
  `ok status body` for a decoded response;
* Python dictionaries holding heterogeneous values are modelled as structures
  whose optional fields are `Option`s; JSON scalars inside flight arrays are
  modelled by the `Field` type;
* `flight_logic.py` and `main.py` are written in Python 2 syntax
  (`print` statements); comparisons between heterogeneous values follow
  CPython 2 semantics where they matter (see `fieldLtInt`).
-/

namespace FlightPortal

/-! ## Constants from `src/config.py` -/

def RUNWAY_CHECK_INTERVAL : Int := 900

def WEATHER_REFRESH_INTERVAL : Int := 300

def MAX_APPROACH_ALTITUDE : Int := 5000

/-! ## Character classes and text matching for `src/lga_client.py`

The parsers in `lga_client.py` are `re.search` calls over upper-cased ATIS
text.  Each regular expression used there is compiled by hand into a
deterministic matcher; determinism is justified because in every pattern a
greedy token (`\s+`, `\d+`, `W?`, `[LCR]?`) is followed either by the end of
the pattern or by a token that can never consume a character the greedy token
gave back, so backtracking can never turn a failure into a success.
-/

/-- Python `\s` on the ASCII range (space, tab, newline, vertical tab,
form feed, carriage return). -/
def isWs (c : Char) : Bool :=
  c = ' ' || c = '\t' || c = '\n' || c = '\x0b' || c = '\x0c' || c = '\r'

/-- The character class `[LCR]` (runway side suffix). -/
def isLCRc (c : Char) : Bool :=
  c = 'L' || c = 'C' || c = 'R'

/-- Python `str.upper()` restricted to ASCII, which is all the patterns need. -/
def upperStr (s : String) : String :=
  String.mk (s.data.map Char.toUpper)

/-- Match a literal token of the pattern; returns the rest of the input. -/
def matchLit : List Char → List Char → Option (List Char)
  | [], rest => some rest
  | _ :: _, [] => none
  | c :: cs, d :: ds => if c = d then matchLit cs ds else none

/-- Match `\s+` (greedy). -/
def matchWs1 : List Char → Option (List Char)
  | [] => none
  | c :: cs => if isWs c then some (cs.dropWhile isWs) else none

/-- Match `RW?Y` (the optional `W` is greedy). -/
def matchRWY : List Char → Option (List Char)
  | 'R' :: 'W' :: 'Y' :: rest => some rest
  | 'R' :: 'Y' :: rest => some rest
  | _ => none

/-- Match the capture group `(\d+[LCR]?)`: one or more digits (greedy)
followed by an optional side letter; returns the captured text and the rest. -/
def matchGroup : List Char → Option (List Char × List Char)
  | [] => none
  | c :: cs =>
    if c.isDigit then
      let ds := c :: cs.takeWhile Char.isDigit
      let rest := cs.dropWhile Char.isDigit
      match rest with
      | r :: rs => if isLCRc r then some (ds ++ [r], rs) else some (ds, rest)
      | [] => some (ds, [])
    else none

/-- Match the pattern tail `\s+APCH\s+IN\s+USE`. -/
def matchApchInUse (s : List Char) : Option (List Char) :=
  (matchWs1 s).bind fun r1 =>
  (matchLit "APCH".data r1).bind fun r2 =>
  (matchWs1 r2).bind fun r3 =>
  (matchLit "IN".data r3).bind fun r4 =>
  (matchWs1 r4).bind fun r5 =>
  matchLit "USE".data r5

/-- `re.search`: try the position matcher at every position, leftmost first. -/
def search (m : List Char → Option String) : List Char → Option String
  | [] => m []
  | c :: cs =>
    match m (c :: cs) with
    | some r => some r
    | none => search m cs

/-- Pattern 1 of `_parse_landing_runway`, at one position:
`LND\s+RW?Y\s+(\d+[LCR]?)`. -/
def pat1At (s : List Char) : Option String :=
  (matchLit "LND".data s).bind fun r1 =>
  (matchWs1 r1).bind fun r2 =>
  (matchRWY r2).bind fun r3 =>
  (matchWs1 r3).bind fun r4 =>
  (matchGroup r4).map fun g => String.mk g.1

/-- Pattern 2 of `_parse_landing_runway`, at one position:
`LANDING\s+RW?Y\s+(\d+[LCR]?)`. -/
def pat2At (s : List Char) : Option String :=
  (matchLit "LANDING".data s).bind fun r1 =>
  (matchWs1 r1).bind fun r2 =>
  (matchRWY r2).bind fun r3 =>
  (matchWs1 r3).bind fun r4 =>
  (matchGroup r4).map fun g => String.mk g.1

/-- Pattern 3 of `_parse_landing_runway`, at one position:
`ILS\s+RW?Y\s+(\d+[LCR]?)\s+APCH\s+IN\s+USE`. -/
def pat3At (s : List Char) : Option String :=
  (matchLit "ILS".data s).bind fun r1 =>
  (matchWs1 r1).bind fun r2 =>
  (matchRWY r2).bind fun r3 =>
  (matchWs1 r3).bind fun r4 =>
  (matchGroup r4).bind fun g =>
  (matchApchInUse g.2).map fun _ => String.mk g.1

/-- Pattern 4 of `_parse_landing_runway`, at one position:
`RW?Y\s+(\d+[LCR]?)\s+APCH\s+IN\s+USE`. -/
def pat4At (s : List Char) : Option String :=
  (matchRWY s).bind fun r1 =>
  (matchWs1 r1).bind fun r2 =>
  (matchGroup r2).bind fun g =>
  (matchApchInUse g.2).map fun _ => String.mk g.1

/-- Tail shared by both branches of the departure pattern:
`\s+RW?Y\s+(\d+[LCR]?)`. -/
def depTail (s : List Char) : Option String :=
  (matchWs1 s).bind fun r1 =>
  (matchRWY r1).bind fun r2 =>
  (matchWs1 r2).bind fun r3 =>
  (matchGroup r3).map fun g => String.mk g.1

/-- The departure pattern of `_parse_departure_runway`, at one position:
`(?:DEPART|DEP)\s+RW?Y\s+(\d+[LCR]?)` (the alternation tries `DEPART` with
the whole tail first, then `DEP`). -/
def depAt (s : List Char) : Option String :=
  match (matchLit "DEPART".data s).bind depTail with
  | some r => some r
  | none => (matchLit "DEP".data s).bind depTail

/-- `_parse_landing_runway` (src/lga_client.py lines 66-105): empty text gives
`None`; otherwise the four patterns are tried in order on the upper-cased
text, and the first that matches anywhere determines the result. -/
def parse_landing_runway (atis_text : String) : Option String :=
  if atis_text = "" then none
  else
    let t := (upperStr atis_text).data
    match search pat1At t with
    | some r => some r
    | none =>
      match search pat2At t with
      | some r => some r
      | none =>
        match search pat3At t with
        | some r => some r
        | none => search pat4At t

/-- `_parse_departure_runway` (src/lga_client.py lines 107-120). -/
def parse_departure_runway (atis_text : String) : Option String :=
  if atis_text = "" then none
  else search depAt (upperStr atis_text).data

/-! ## Client functions from `src/lga_client.py`

Both clients catch every exception internally, so a network error or a
malformed JSON body (`err` below) makes them return their documented default
value instead of raising. -/

/-- Result of the ATIS advisory HTTP request: `err` is an exception from
`requests.get`/`response.json()`; `ok status objs` is a decoded array whose
elements are represented by their `datis` text (with `""` for a missing
key, as `data[0].get("datis", "")` yields). -/
inductive AtisFetch where
  | err : AtisFetch
  | ok : Int → List String → AtisFetch
deriving Repr, DecidableEq

/-- The parsed runway pair returned by `get_active_runways`. -/
structure Runways where
  arrivals : Option String
  departures : Option String
deriving Repr, DecidableEq

/-- `get_active_runways` (src/lga_client.py lines 34-64). -/
def get_active_runways : AtisFetch → Runways
  | .err => ⟨none, none⟩
  | .ok status objs =>
    if status = 200 then
      match objs with
      | datis :: _ =>
        let atis_text := upperStr datis
        ⟨parse_landing_runway atis_text, parse_departure_runway atis_text⟩
      | [] => ⟨none, none⟩
    else ⟨none, none⟩

/-- Result of the METAR HTTP request, elements represented by their `rawOb`
text (with `""` for a missing key). -/
inductive MetarFetch where
  | err : MetarFetch
  | ok : Int → List String → MetarFetch
deriving Repr, DecidableEq

/-- `get_current_metar` (src/lga_client.py lines 15-32). -/
def get_current_metar : MetarFetch → Option String
  | .err => none
  | .ok status objs =>
    if status = 200 then
      match objs with
      | rawOb :: _ => some rawOb
      | [] => none
    else none

/-! ## Data model of `src/flight_logic.py` -/

/-- A JSON scalar inside a flight data array (or stored from one). -/
inductive Field where
  | num : Int → Field
  | str : String → Field
  | null : Field
deriving Repr, DecidableEq

/-- Python truthiness of a `Field` (used by `callsign or "Unknown"`). -/
def fieldFalsy : Field → Bool
  | .num n => n = 0
  | .str s => s = ""
  | .null => true

/-- CPython 2 `value < m` for a feed field against an integer constant:
numbers compare numerically; a string compares greater than any integer
(so `s < m` is false); `None` compares less than everything.
(`flight_logic.py` is Python 2 source — it uses `print` statements —
so cross-type comparisons do not raise.) -/
def fieldLtInt : Field → Int → Bool
  | .num n, m => decide (n < m)
  | .str _, _ => false
  | .null, _ => true

/-- Python 2 `str()`/`"{}".format` rendering of a feed field. -/
def pyStr : Field → String
  | .num n => toString n
  | .str s => s
  | .null => "None"

/-- The dict `check_runway_status` builds and caches. -/
structure RunwayStatus where
  runway_04_active : Bool
  arrivals : Option String
  departures : Option String
  last_updated : Int
deriving Repr, DecidableEq

/-- The dict `get_weather_display` builds and caches (`wtype` models the
`"type"` key, which is `"weather"` at every construction site). -/
structure WeatherData where
  wtype : String
  metar : Option String
  arrivals_runway : Option String
  departures_runway : Option String
  last_updated : Int
deriving Repr, DecidableEq

/-- The dict `_parse_flight_data` builds. -/
structure FlightRecord where
  flight_id : String
  callsign : Field
  aircraft_type : Field
  altitude : Field
  speed : Field
  origin : Field
  destination : Field
  route : String
deriving Repr, DecidableEq

/-- The mutable fields of the `FlightLogic` instance. -/
structure LogicState where
  last_runway_check : Int
  last_weather_refresh : Int
  cached_runway_status : Option RunwayStatus
  cached_weather_data : Option WeatherData
deriving Repr, DecidableEq

/-- The freshly constructed `FlightLogic` object (src/flight_logic.py
lines 25-30). -/
def initialState : LogicState :=
  ⟨0, 0, none, none⟩

/-! ## `check_runway_status` (src/flight_logic.py lines 36-94) -/

/-- `re.sub(r'[LCR]$', '', arrivals)`: strip one trailing side letter. -/
def stripLCR (s : String) : String :=
  match s.data.getLast? with
  | some c => if isLCRc c then String.mk s.data.dropLast else s
  | none => s

/-- The `runway_04_active` computation (src/flight_logic.py lines 61-66):
false for a missing or empty designator, else true iff the designator with
the side letter stripped is `"04"` or `"4"`. -/
def runway04FromArrivals : Option String → Bool
  | none => false
  | some a => if a = "" then false else decide (stripLCR a = "04" ∨ stripLCR a = "4")

/-- The fetch branch of `check_runway_status` (src/flight_logic.py
lines 55-80).  `get_active_runways` never raises, and the rest of the body is
total, so the `except` fallback at lines 82-94 is unreachable and has no
counterpart here.  The final `Bool` records that a fetch was performed. -/
def check_runway_fetch (st : LogicState) (now : Int) (fetch : AtisFetch) :
    LogicState × RunwayStatus × Bool :=
  let runways := get_active_runways fetch
  let rs : RunwayStatus :=
    ⟨runway04FromArrivals runways.arrivals, runways.arrivals, runways.departures, now⟩
  ({ st with cached_runway_status := some rs, last_runway_check := now }, rs, true)

/-- `check_runway_status(force_refresh)` with the current time and the fetch
oracle made explicit; returns the updated object state, the status dict and
whether a fetch was performed. -/
def check_runway_status (st : LogicState) (now : Int) (force_refresh : Bool)
    (fetch : AtisFetch) : LogicState × RunwayStatus × Bool :=
  match st.cached_runway_status with
  | some cached =>
    if force_refresh = false ∧ now - st.last_runway_check < RUNWAY_CHECK_INTERVAL then
      (st, cached, false)
    else check_runway_fetch st now fetch
  | none => check_runway_fetch st now fetch

/-! ## `get_runway_04_flights` and `_parse_flight_data`
(src/flight_logic.py lines 96-162) -/

/-- A value of the live feed mapping: a reserved scalar (`version`,
`full_count`, …) or a positional field array. -/
inductive FeedVal where
  | scalar : FeedVal
  | arr : List Field → FeedVal
deriving Repr, DecidableEq

/-- Result of the live feed HTTP request; `ok status entries` lists the JSON
object entries in upstream (insertion) order, as `data.items()` iterates. -/
inductive FeedFetch where
  | err : FeedFetch
  | ok : Int → List (String × FeedVal) → FeedFetch
deriving Repr, DecidableEq

/-- `_parse_flight_data` (src/flight_logic.py lines 135-162).  The callsign
line `flight_info[16] if len(flight_info) > 16 else flight_info[13]` is
evaluated first; on an array of exactly 13 fields (valid indices 0-12) the
`flight_info[13]` access raises `IndexError` and the `except` branch at
lines 160-162 returns `None` — that path is the `none` arm of the inner
`match` below.  Every other index is guarded by a length check, so no other
exception can occur; for arrays of at least 14 fields the `getD` defaults
are never used. -/
def parse_flight_data (flight_id : String) (flight_info : List Field) :
    Option FlightRecord :=
  if flight_info.length < 13 then none
  else
    match (if flight_info.length > 16 then some (flight_info.getD 16 .null)
           else if flight_info.length > 13 then some (flight_info.getD 13 .null)
           else none : Option Field) with
    | none => none
    | some callsign =>
      let aircraft_type :=
        if flight_info.length > 8 then flight_info.getD 8 .null else .str "Unknown"
      let altitude := flight_info.getD 4 .null
      let speed := flight_info.getD 5 .null
      let origin :=
        if flight_info.length > 11 then flight_info.getD 11 .null else .str "???"
      let destination :=
        if flight_info.length > 12 then flight_info.getD 12 .null else .str "LGA"
      some
        { flight_id := flight_id
          callsign := if fieldFalsy callsign then .str "Unknown" else callsign
          aircraft_type := aircraft_type
          altitude := altitude
          speed := speed
          origin := origin
          destination := destination
          route := pyStr origin ++ " → " ++ pyStr destination }

/-- The `for flight_id, flight_info in data.items()` loop of
`get_runway_04_flights` (src/flight_logic.py lines 117-126). -/
def find_flight_loop : List (String × FeedVal) → Option FlightRecord
  | [] => none
  | (flight_id, v) :: rest =>
    if flight_id ≠ "version" ∧ flight_id ≠ "full_count" then
      match v with
      | .arr flight_info =>
        if flight_info.length ≥ 13 then
          let altitude := flight_info.getD 4 (.num 0)
          if fieldLtInt altitude MAX_APPROACH_ALTITUDE then
            match parse_flight_data flight_id flight_info with
            | some flight_data => some flight_data
            | none => find_flight_loop rest
          else find_flight_loop rest
        else find_flight_loop rest
      | .scalar => find_flight_loop rest
    else find_flight_loop rest

/-- `get_runway_04_flights` (src/flight_logic.py lines 96-133): an exception
(`err`) or a non-200 status yields `None`, else the first qualifying entry
in feed order. -/
def get_runway_04_flights : FeedFetch → Option FlightRecord
  | .err => none
  | .ok status entries =>
    if status = 200 then find_flight_loop entries else none

/-! ## `get_weather_display` (src/flight_logic.py lines 164-212) -/

/-- The fetch branch of `get_weather_display` (src/flight_logic.py
lines 182-197).  `get_current_metar` and `check_runway_status` never raise,
so the `except` fallback at lines 199-212 (stale cache, then the
`"Weather unavailable"` default) is unreachable and has no counterpart
here.  The `"arrivals_runway"`/`"departures_runway"` keys copy
`runway_status.get("arrivals"/"departures", "Unknown")`; both keys are always
present in the status dict, so the `"Unknown"` defaults are never used. -/
def get_weather_fetch (st : LogicState) (now : Int) (mf : MetarFetch)
    (af : AtisFetch) : LogicState × WeatherData :=
  let metar := get_current_metar mf
  let res := check_runway_status st now false af
  let wd : WeatherData :=
    ⟨"weather", metar, res.2.1.arrivals, res.2.1.departures, now⟩
  ({ res.1 with cached_weather_data := some wd, last_weather_refresh := now }, wd)

/-- `get_weather_display(force_refresh)` with time and fetch oracles made
explicit. -/
def get_weather_display (st : LogicState) (now : Int) (force_refresh : Bool)
    (mf : MetarFetch) (af : AtisFetch) : LogicState × WeatherData :=
  match st.cached_weather_data with
  | some cached =>
    if force_refresh = false ∧ now - st.last_weather_refresh < WEATHER_REFRESH_INTERVAL then
      (st, cached)
    else get_weather_fetch st now mf af
  | none => get_weather_fetch st now mf af

/-! ## `get_display_data` (src/flight_logic.py lines 214-242) -/

/-- The display dict returned by `get_display_data`: `dtype` models the
`"type"` key; the payload keys present in each variant are modelled by the
`Option` fields. -/
structure DisplayData where
  dtype : String
  flight : Option FlightRecord
  message : Option String
  weather : Option WeatherData
  runway_status : Option RunwayStatus
deriving Repr, DecidableEq

/-- `get_display_data` with time and the three fetch oracles made explicit. -/
def get_display_data (st : LogicState) (now : Int) (af : AtisFetch)
    (ff : FeedFetch) (mf : MetarFetch) : LogicState × DisplayData :=
  let res := check_runway_status st now false af
  let runway_status := res.2.1
  if runway_status.runway_04_active then
    match get_runway_04_flights ff with
    | some flight_data =>
      (res.1, ⟨"flight", some flight_data, none, none, some runway_status⟩)
    | none =>
      (res.1, ⟨"no_flights", none, some "RWY04 Active - No Approach Traffic", none,
        some runway_status⟩)
  else
    let wres := get_weather_display res.1 now false mf af
    (wres.1, ⟨wres.2.wtype, none, none, some wres.2, some runway_status⟩)

/-! ## The poll loop pieces from `src/main.py` -/

/-- The mutable fields of `FlightPortalApp` that drive redraw suppression. -/
structure AppState where
  last_flight_id : Option String
  current_display_mode : Option String
deriving Repr, DecidableEq

/-- One call to the rendering collaborator (`display_controller`). -/
inductive RenderCall where
  | clearDisplay : RenderCall
  | showFlightInfo : Option String → RenderCall
  | showNoFlights : RenderCall
  | showWeatherInfo : RenderCall
deriving Repr, DecidableEq

/-- Whether a render call redraws the flight display. -/
def isShowFlight : RenderCall → Bool
  | .showFlightInfo _ => true
  | _ => false

/-- `_handle_flight_display` (src/main.py lines 104-118): returns the updated
app state and the render calls issued, in order.  `display_data.get("flight_id")`
is modelled by projecting the id out of the flight payload. -/
def handle_flight_display (app : AppState) (display_data : DisplayData) :
    AppState × List RenderCall :=
  let flight_id := display_data.flight.map fun fd => fd.flight_id
  if flight_id = app.last_flight_id ∧ app.current_display_mode = some "flight" then
    (app, [])
  else
    (⟨flight_id, some "flight"⟩, [.clearDisplay, .showFlightInfo flight_id])

/-- The branch of the `run` loop selected by `display_data["type"]`
(src/main.py lines 72-86). -/
inductive DispatchBranch where
  | flight : DispatchBranch
  | no_flights : DispatchBranch
  | weather : DispatchBranch
  | unknown : DispatchBranch
deriving Repr, DecidableEq

/-- The dispatch on `display_data["type"]` in the `run` loop. -/
def run_dispatch (display_data : DisplayData) : DispatchBranch :=
  if display_data.dtype = "flight" then .flight
  else if display_data.dtype = "no_flights" then .no_flights
  else if display_data.dtype = "weather" then .weather
  else .unknown

/-- Well-formedness of the weather cache: every cached weather dict carries
`"type": "weather"` (true of every construction site). -/
def weatherCacheWF (st : LogicState) : Prop :=
  ∀ wd, st.cached_weather_data = some wd → wd.wtype = "weather"

/-- Invariant claimed of every `RunwayStatus`: the active flag is set exactly
when the arrivals designator, with one trailing side letter stripped, is
`"04"` or `"4"`. -/
def runwayInv (rs : RunwayStatus) : Prop :=
  rs.runway_04_active = true ↔
    ∃ a, rs.arrivals = some a ∧ (stripLCR a = "04" ∨ stripLCR a = "4")

/-- The effective candidate test of the `get_runway_04_flights` loop: not a
reserved key, a positional array of at least 13 fields, below the altitude
cap, and the `if flight_data:` guard — the parse produced a record (which
fails on exactly-13-field arrays, where extraction raises IndexError and
returns `None`). -/
def is_candidate : String × FeedVal → Bool
  | (flight_id, .arr flight_info) =>
    decide (flight_id ≠ "version") && decide (flight_id ≠ "full_count") &&
    decide (flight_info.length ≥ 13) &&
    fieldLtInt (flight_info.getD 4 (.num 0)) MAX_APPROACH_ALTITUDE &&
    (parse_flight_data flight_id flight_info).isSome
  | (_, .scalar) => false

/-- The record parsed from a feed entry. -/
def candidate_record : String × FeedVal → Option FlightRecord
  | (flight_id, .arr flight_info) => parse_flight_data flight_id flight_info
  | (_, .scalar) => none

/-- The callsign rule exactly as the claim words it: field 16 if present else
field 13, with `"Unknown"` substituted only when both are empty. -/
def callsign_claimed (fs : List Field) : Field :=
  if fieldFalsy (fs.getD 16 .null) ∧ fieldFalsy (fs.getD 13 .null) then .str "Unknown"
  else if 16 < fs.length then fs.getD 16 .null else fs.getD 13 .null

/-! ## Concrete sample data used by witnesses and counterexamples -/

/-- A previously cached runway status (runway 04 active). -/
def sampleCached : RunwayStatus := ⟨true, some "04", some "13", 0⟩

/-- A `FlightLogic` state holding `sampleCached` fetched at time 0. -/
def sampleCachedState : LogicState := ⟨0, 0, some sampleCached, none⟩

/-- A previously cached weather dict. -/
def sampleWeather : WeatherData := ⟨"weather", some "KLGA OLD METAR", some "04", some "13", 0⟩

/-- A `FlightLogic` state holding `sampleWeather` fetched at time 0. -/
def sampleWeatherState : LogicState := ⟨0, 0, none, some sampleWeather⟩

/-- A 17-field feed array whose field 16 is empty while field 13 is not. -/
def sampleFields17 : List Field :=
  [.str "h", .num 1, .num 2, .num 3, .num 3500, .num 180, .str "x", .str "x",
   .str "A320", .str "x", .str "x", .str "ORD", .str "LGA", .str "DAL123",
   .num 0, .num 0, .str ""]

/-- A 13-field feed array below the altitude cap: it passes the loop's
length and altitude checks, but its extraction raises IndexError at
field 13 in the code, so no record is produced. -/
def sampleFields13 : List Field :=
  [.str "h", .num 1, .num 2, .num 3, .num 3500, .num 180, .str "x", .str "x",
   .str "A320", .str "x", .str "x", .str "ORD", .str "LGA"]

/-- A 14-field feed array below the altitude cap — the minimum length whose
extraction succeeds (callsign falls back to field 13). -/
def sampleFields14 : List Field :=
  [.str "h", .num 1, .num 2, .num 3, .num 3500, .num 180, .str "x", .str "x",
   .str "A320", .str "x", .str "x", .str "ORD", .str "LGA", .str "UAL2"]

/-- A small feed: one reserved key followed by one valid flight entry. -/
def sampleEntries : List (String × FeedVal) :=
  [("version", .scalar), ("abc", .arr sampleFields14)]

/-- A flight display dict as produced by `get_display_data`. -/
def sampleFlightDD : DisplayData :=
  ⟨"flight",
   some ⟨"bbb", .str "UAL2", .str "A320", .num 3500, .num 180, .str "ORD",
     .str "LGA", "ORD → LGA"⟩,
   none, none, none⟩

/-! ## Helper lemmas -/

/-- `check_runway_status` never touches the weather cache. -/
theorem check_preserves_weather_cache (st : LogicState) (now : Int) (force : Bool)
    (af : AtisFetch) :
    (check_runway_status st now force af).1.cached_weather_data =
      st.cached_weather_data := by
  unfold check_runway_status check_runway_fetch
  split
  · split <;> rfl
  · rfl

/-- Every weather dict `get_weather_display` returns carries
`"type": "weather"`, provided the cache does. -/
theorem weather_wtype (st : LogicState) (now : Int) (force : Bool)
    (mf : MetarFetch) (af : AtisFetch) (hwf : weatherCacheWF st) :
    ((get_weather_display st now force mf af).2).wtype = "weather" := by
  unfold get_weather_display
  split
  next cached hc =>
    split
    · exact hwf cached hc
    · simp [get_weather_fetch]
  next hc => simp [get_weather_fetch]

/-- `_parse_flight_data` succeeds on every array of at least 14 fields (at
exactly 13 fields the callsign access raises IndexError and it returns
`None`). -/
theorem parse_flight_data_isSome (flight_id : String) (fs : List Field)
    (h : 14 ≤ fs.length) : (parse_flight_data flight_id fs).isSome = true := by
  have hn : ¬ fs.length < 13 := by omega
  by_cases h16 : fs.length > 16
  · simp [parse_flight_data, hn, h16]
  · have h13 : fs.length > 13 := by omega
    simp [parse_flight_data, hn, h16, h13]

/-- Characterisation of the `runway_04_active` computation. -/
theorem runway04FromArrivals_iff (arr : Option String) :
    runway04FromArrivals arr = true ↔
      ∃ a, arr = some a ∧ (stripLCR a = "04" ∨ stripLCR a = "4") := by
  cases arr with
  | none => simp [runway04FromArrivals]
  | some a =>
    simp only [runway04FromArrivals, Option.some.injEq]
    by_cases ha : a = ""
    · subst ha
      rw [if_pos rfl]
      constructor
      · intro h; exact Bool.noConfusion h
      · rintro ⟨b, hb, hs⟩
        subst hb
        revert hs; decide
    · rw [if_neg ha]
      constructor
      · intro h
        exact ⟨a, rfl, of_decide_eq_true h⟩
      · rintro ⟨b, hb, hs⟩
        subst hb
        exact decide_eq_true hs

/-- Stripping one trailing side letter from a designator that ends in one. -/
theorem stripLCR_concat (D : String) (c : Char) (hc : isLCRc c = true) :
    stripLCR (D ++ String.mk [c]) = D := by
  unfold stripLCR
  have hdata : (D ++ String.mk [c]).data = D.data ++ [c] := String.data_append D _
  rw [hdata, List.getLast?_concat, List.dropLast_concat]
  simp only [hc, if_true]

/-- A designator made of digits is unchanged by the side letter strip. -/
theorem stripLCR_of_digits (D : String)
    (hdig : ∀ c ∈ D.data, c.isDigit = true) : stripLCR D = D := by
  unfold stripLCR
  cases hl : D.data.getLast? with
  | none => rfl
  | some c =>
    have hc : c ∈ D.data := by
      obtain ⟨hne, hceq⟩ := List.mem_getLast?_eq_getLast (l := D.data) (x := c) hl
      rw [hceq]
      exact List.getLast_mem hne
    have hd : c.isDigit = true := hdig c hc
    have hlcr : isLCRc c = false := by
      rcases Bool.eq_false_or_eq_true (isLCRc c) with h | h
      · exfalso
        have hmem : (c = 'L' ∨ c = 'C') ∨ c = 'R' := by
          simpa [isLCRc] using h
        rcases hmem with (rfl | rfl) | rfl <;> exact absurd hd (by decide)
      · exact h
    dsimp only
    rw [hlcr]
    simp

/-! ## Claims -/

/-- C2 counterexample: with a cached status present and its TTL expired, a
failing advisory fetch does not return the cached status unchanged — the
claim "if the runway-advisory fetch fails then check returns the previously
cached RunwayStatus unchanged when one exists" is false on the code.  The
last conjunct confirms the call did perform the (failing) fetch. -/
theorem C2_counterexample :
    sampleCachedState.cached_runway_status = some sampleCached ∧
    (check_runway_status sampleCachedState 1000 false .err).2.1 ≠ sampleCached ∧
    (check_runway_status sampleCachedState 1000 false .err).2.2 = true := by
  decide

/-- C2 (amended): `get_active_runways` swallows fetch errors and returns
`{arrivals: None, departures: None}`, so a `check_runway_status` call that
performs a fetch returns the default status
`{runway04Active: false, arrivalsRunway: none, departuresRunway: none,
lastUpdated: now}` and replaces the cache with it; the previously cached
value is not returned. -/
theorem C2_amended_failure_default (st : LogicState) (now : Int) (force : Bool)
    (h : st.cached_runway_status = none ∨ force = true ∨
      RUNWAY_CHECK_INTERVAL ≤ now - st.last_runway_check) :
    (check_runway_status st now force .err).2.1 =
      (⟨false, none, none, now⟩ : RunwayStatus) ∧
    (check_runway_status st now force .err).1.cached_runway_status =
      some (⟨false, none, none, now⟩ : RunwayStatus) ∧
    (check_runway_status st now force .err).2.2 = true := by
  have hfetch : check_runway_status st now force .err = check_runway_fetch st now .err := by
    unfold check_runway_status
    split
    next cached hc =>
      rw [if_neg]
      rcases h with h | h | h
      · rw [hc] at h; exact Option.noConfusion h
      · rintro ⟨h1, _⟩; rw [h] at h1; exact Bool.noConfusion h1
      · rintro ⟨_, h2⟩; omega
    next hc => rfl
  rw [hfetch]
  exact ⟨rfl, rfl, rfl⟩

/-- C2 witness for the amended theorem, at the freshly constructed state. -/
theorem C2_amended_witness :
    (check_runway_status initialState 5 true .err).2.1 =
      (⟨false, none, none, 5⟩ : RunwayStatus) :=
  (C2_amended_failure_default initialState 5 true (Or.inl rfl)).1

/-- C9 counterexample: with a cached weather dict present and its TTL
expired, a failing METAR fetch neither returns the cached dict unchanged nor
produces the `"Weather unavailable"` default — the claim is false on the
code. -/
theorem C9_counterexample :
    sampleWeatherState.cached_weather_data = some sampleWeather ∧
    (get_weather_display sampleWeatherState 1000 false .err .err).2 ≠ sampleWeather ∧
    (get_weather_display sampleWeatherState 1000 false .err .err).2.metar ≠
      some "Weather unavailable" := by
  decide

/-- C9 (amended): `get_current_metar` swallows fetch errors and returns
`None`, so a `get_weather_display` call that performs a refresh stores and
returns a fresh snapshot whose `metar` is `none` (not the stale cache, and
not `"Weather unavailable"`), replacing any cached snapshot. -/
theorem C9_amended_failure_default (st : LogicState) (now : Int) (force : Bool)
    (af : AtisFetch)
    (h : st.cached_weather_data = none ∨ force = true ∨
      WEATHER_REFRESH_INTERVAL ≤ now - st.last_weather_refresh) :
    (get_weather_display st now force .err af).2.metar = none ∧
    (get_weather_display st now force .err af).2.wtype = "weather" ∧
    (get_weather_display st now force .err af).1.cached_weather_data =
      some (get_weather_display st now force .err af).2 := by
  have hfetch : get_weather_display st now force .err af = get_weather_fetch st now .err af := by
    unfold get_weather_display
    split
    next cached hc =>
      rw [if_neg]
      rcases h with h | h | h
      · rw [hc] at h; exact Option.noConfusion h
      · rintro ⟨h1, _⟩; rw [h] at h1; exact Bool.noConfusion h1
      · rintro ⟨_, h2⟩; omega
    next hc => rfl
  rw [hfetch]
  exact ⟨rfl, rfl, rfl⟩

/-- C9 witness for the amended theorem, at the freshly constructed state. -/
theorem C9_amended_witness :
    (get_weather_display initialState 5 true .err .err).2.metar = none :=
  (C9_amended_failure_default initialState 5 true .err (Or.inl rfl)).1

/-- C1: for every state and fetch outcome, `get_display_data` yields exactly
one of three intents: when `runway_04_active` is true it invokes the flight
finder and returns the `"flight"` dict carrying the found record if a match
exists, else the `"no_flights"` dict carrying the runway status; when it is
false it returns the `"weather"` dict carrying a weather snapshot, and the
result does not depend on what the flight finder would return. -/
theorem C1_display_selection (st : LogicState) (now : Int) (af : AtisFetch)
    (ff : FeedFetch) (mf : MetarFetch) (hwf : weatherCacheWF st) :
    ((check_runway_status st now false af).2.1.runway_04_active = true →
      (∀ fd, get_runway_04_flights ff = some fd →
        (get_display_data st now af ff mf).2 =
          ⟨"flight", some fd, none, none,
            some (check_runway_status st now false af).2.1⟩) ∧
      (get_runway_04_flights ff = none →
        (get_display_data st now af ff mf).2 =
          ⟨"no_flights", none, some "RWY04 Active - No Approach Traffic", none,
            some (check_runway_status st now false af).2.1⟩)) ∧
    ((check_runway_status st now false af).2.1.runway_04_active = false →
      (get_display_data st now af ff mf).2.dtype = "weather" ∧
      ((get_display_data st now af ff mf).2.weather).isSome = true ∧
      (get_display_data st now af ff mf).2.runway_status =
        some (check_runway_status st now false af).2.1 ∧
      ∀ ffB : FeedFetch,
        get_display_data st now af ffB mf = get_display_data st now af ff mf) := by
  have hwf1 : weatherCacheWF (check_runway_status st now false af).1 := by
    intro wd hw
    rw [check_preserves_weather_cache] at hw
    exact hwf wd hw
  refine ⟨fun hact => ⟨fun fd hfd => ?_, fun hnone => ?_⟩, fun hinact => ?_⟩
  · simp only [get_display_data, hact, if_true, hfd]
  · simp only [get_display_data, hact, if_true, hnone]
  · refine ⟨?_, ?_, ?_, ?_⟩
    · simp only [get_display_data, hinact, Bool.false_eq_true, if_false]
      exact weather_wtype _ now false mf af hwf1
    · simp only [get_display_data, hinact, Bool.false_eq_true, if_false, Option.isSome_some]
    · simp only [get_display_data, hinact, Bool.false_eq_true, if_false]
    · intro ffB
      simp only [get_display_data, hinact, Bool.false_eq_true, if_false]

/-- C1 witness: at the freshly constructed state with a failing advisory
fetch, runway 04 is inactive and the weather intent is produced. -/
theorem C1_display_selection_witness :
    (get_display_data initialState 0 .err .err .err).2.dtype = "weather" ∧
    ((get_display_data initialState 0 .err .err .err).2.weather).isSome = true := by
  have h := (C1_display_selection initialState 0 .err .err .err
    (fun wd hw => Option.noConfusion hw)).2 (by decide)
  exact ⟨h.1, h.2.1⟩

/-- C10: every dict `get_display_data` returns has its `"type"` key equal to
`"flight"`, `"no_flights"` or `"weather"`, and always carries the current
runway status; hence the unknown-type branch of the poll loop is never
taken.  The hypothesis states that any cached weather dict carries
`"type": "weather"`, which is true of every construction site. -/
theorem C10_display_type_tags (st : LogicState) (now : Int) (af : AtisFetch)
    (ff : FeedFetch) (mf : MetarFetch) (hwf : weatherCacheWF st) :
    ((get_display_data st now af ff mf).2.dtype = "flight" ∨
     (get_display_data st now af ff mf).2.dtype = "no_flights" ∨
     (get_display_data st now af ff mf).2.dtype = "weather") ∧
    ((get_display_data st now af ff mf).2.runway_status).isSome = true ∧
    run_dispatch (get_display_data st now af ff mf).2 ≠ .unknown := by
  have hwf1 : weatherCacheWF (check_runway_status st now false af).1 := by
    intro wd hw
    rw [check_preserves_weather_cache] at hw
    exact hwf wd hw
  have htag : (get_display_data st now af ff mf).2.dtype = "flight" ∨
      (get_display_data st now af ff mf).2.dtype = "no_flights" ∨
      (get_display_data st now af ff mf).2.dtype = "weather" := by
    cases hact : (check_runway_status st now false af).2.1.runway_04_active with
    | true =>
      cases hfd : get_runway_04_flights ff with
      | some fd => left; simp only [get_display_data, hact, if_true, hfd]
      | none => right; left; simp only [get_display_data, hact, if_true, hfd]
    | false =>
      right; right
      simp only [get_display_data, hact, Bool.false_eq_true, if_false]
      exact weather_wtype _ now false mf af hwf1
  have hrs : ((get_display_data st now af ff mf).2.runway_status).isSome = true := by
    cases hact : (check_runway_status st now false af).2.1.runway_04_active with
    | true =>
      cases hfd : get_runway_04_flights ff with
      | some fd => simp only [get_display_data, hact, if_true, hfd, Option.isSome_some]
      | none => simp only [get_display_data, hact, if_true, hfd, Option.isSome_some]
    | false =>
      simp only [get_display_data, hact, Bool.false_eq_true, if_false, Option.isSome_some]
  refine ⟨htag, hrs, ?_⟩
  rcases htag with h | h | h <;> simp [run_dispatch, h]

/-- C10 witness at the freshly constructed state. -/
theorem C10_display_type_tags_witness :
    run_dispatch (get_display_data initialState 0 .err .err .err).2 ≠ .unknown :=
  (C10_display_type_tags initialState 0 .err .err .err
    (fun _ hw => Option.noConfusion hw)).2.2

/-- C3: every status `check_runway_status` returns satisfies the invariant
"`runway_04_active` is true iff the arrivals designator, with one trailing
L/C/R stripped, is `04` or `4`" (assuming every previously cached status
does, which holds since only this function writes the cache); in particular
the flag is false when no arrivals runway was parsed, and for a designator
made of digits the optional side letter never affects the flag. -/
theorem C3_runway04_active_iff (st : LogicState) (now : Int) (force : Bool)
    (af : AtisFetch)
    (hcache : ∀ rs, st.cached_runway_status = some rs → runwayInv rs) :
    runwayInv (check_runway_status st now force af).2.1 ∧
    ((check_runway_status st now force af).2.1.arrivals = none →
      (check_runway_status st now force af).2.1.runway_04_active = false) ∧
    (∀ D S : String, D.data ≠ [] → (∀ c ∈ D.data, c.isDigit = true) →
      (S = "" ∨ S = "L" ∨ S = "C" ∨ S = "R") →
      runway04FromArrivals (some (D ++ S)) =
        (decide (D = "04") || decide (D = "4"))) := by
  have hfetchinv : ∀ fetch : AtisFetch, runwayInv (check_runway_fetch st now fetch).2.1 :=
    fun fetch => runway04FromArrivals_iff (get_active_runways fetch).arrivals
  have hinv : runwayInv (check_runway_status st now force af).2.1 := by
    unfold check_runway_status
    split
    next cached hc =>
      split
      · exact hcache cached hc
      · exact hfetchinv af
    next hc => exact hfetchinv af
  refine ⟨hinv, ?_, ?_⟩
  · intro hnone
    cases hb : (check_runway_status st now force af).2.1.runway_04_active with
    | false => rfl
    | true =>
      obtain ⟨a, ha, _⟩ := hinv.mp hb
      rw [hnone] at ha
      exact Option.noConfusion ha
  · intro D S hne hdig hS
    have hstrip : stripLCR (D ++ S) = D := by
      rcases hS with rfl | rfl | rfl | rfl
      · rw [show D ++ "" = D by simp]
        exact stripLCR_of_digits D hdig
      · exact stripLCR_concat D 'L' (by decide)
      · exact stripLCR_concat D 'C' (by decide)
      · exact stripLCR_concat D 'R' (by decide)
    have hne2 : ¬ (D ++ S = "") := by
      intro h
      have hdat : (D ++ S).data = [] := by rw [h]
      rw [String.data_append] at hdat
      exact hne (List.append_eq_nil.mp hdat).1
    simp only [runway04FromArrivals]
    rw [if_neg hne2, hstrip]
    simp [Bool.decide_or]

/-- C3 witness: a fetch of `LND RY 4L` activates the flag and the invariant
holds of the returned status. -/
theorem C3_runway04_active_iff_witness :
    runwayInv (check_runway_status initialState 0 false
      (.ok 200 ["LND RY 4L"])).2.1 ∧
    (check_runway_status initialState 0 false
      (.ok 200 ["LND RY 4L"])).2.1.runway_04_active = true :=
  ⟨(C3_runway04_active_iff initialState 0 false (.ok 200 ["LND RY 4L"])
      (fun rs h => Option.noConfusion h)).1,
   by decide⟩

/-- C4: if a `check_runway_status(False)` call performed a fetch (populating
the cache) at time `t1`, a second `check_runway_status(False)` call less
than 900 seconds later returns the same status dict and performs no fetch;
and a `check_runway_status(True)` call always performs a fetch. -/
theorem C4_ttl_cache (st : LogicState) (t1 t2 : Int) (f1 f2 : AtisFetch)
    (hpop : (check_runway_status st t1 false f1).2.2 = true)
    (hlt : t2 - t1 < RUNWAY_CHECK_INTERVAL) :
    (check_runway_status (check_runway_status st t1 false f1).1 t2 false f2).2.1 =
      (check_runway_status st t1 false f1).2.1 ∧
    (check_runway_status (check_runway_status st t1 false f1).1 t2 false f2).2.2 =
      false ∧
    ∀ (stF : LogicState) (now : Int) (f : AtisFetch),
      (check_runway_status stF now true f).2.2 = true := by
  have hforce : ∀ (stF : LogicState) (now : Int) (f : AtisFetch),
      (check_runway_status stF now true f).2.2 = true := by
    intro stF now f
    unfold check_runway_status
    split
    next cached hc =>
      rw [if_neg]
      · rfl
      · rintro ⟨h1, _⟩
        exact Bool.noConfusion h1
    next hc => rfl
  have hfetch : check_runway_status st t1 false f1 = check_runway_fetch st t1 f1 := by
    rcases hc : st.cached_runway_status with _ | cached
    · unfold check_runway_status
      rw [hc]
    · unfold check_runway_status at hpop ⊢
      rw [hc] at hpop ⊢
      dsimp only at hpop ⊢
      rcases h : decide (false = false ∧ t1 - st.last_runway_check < RUNWAY_CHECK_INTERVAL) with _ | _
      · rw [if_neg (of_decide_eq_false h)]
      · rw [if_pos (of_decide_eq_true h)] at hpop
        exact Bool.noConfusion hpop
  rw [hfetch]
  unfold check_runway_fetch
  unfold check_runway_status
  dsimp only
  rw [if_pos]
  · exact ⟨rfl, rfl, hforce⟩
  · exact ⟨rfl, by omega⟩

/-- C4 witness: two calls at times 0 and 100 on the fresh state. -/
theorem C4_ttl_cache_witness :
    (check_runway_status (check_runway_status initialState 0 false .err).1
      100 false .err).2.1 = (check_runway_status initialState 0 false .err).2.1 ∧
    (check_runway_status (check_runway_status initialState 0 false .err).1
      100 false .err).2.2 = false := by
  have h := C4_ttl_cache initialState 0 100 .err .err (by decide) (by decide)
  exact ⟨h.1, h.2.1⟩

/-- C5: on non-empty advisory text, the four landing patterns are tried in
strict priority order over the upper-cased text — the first pattern that
matches anywhere determines the result and later patterns are not
consulted; if none matches the arrivals runway is `none` (conjunct four
states the result equals the fourth search outright, covering both its
match and its failure); the departure runway is the single `DEPART|DEP`
pattern search. -/
theorem C5_pattern_priority (s : String) (hs : s ≠ "") :
    (∀ r, search pat1At (upperStr s).data = some r →
      parse_landing_runway s = some r) ∧
    (search pat1At (upperStr s).data = none →
      ∀ r, search pat2At (upperStr s).data = some r →
        parse_landing_runway s = some r) ∧
    (search pat1At (upperStr s).data = none →
      search pat2At (upperStr s).data = none →
        ∀ r, search pat3At (upperStr s).data = some r →
          parse_landing_runway s = some r) ∧
    (search pat1At (upperStr s).data = none →
      search pat2At (upperStr s).data = none →
        search pat3At (upperStr s).data = none →
          parse_landing_runway s = search pat4At (upperStr s).data) ∧
    parse_departure_runway s = search depAt (upperStr s).data := by
  refine ⟨fun r h1 => ?_, fun h1 r h2 => ?_, fun h1 h2 r h3 => ?_,
    fun h1 h2 h3 => ?_, ?_⟩
  · simp only [parse_landing_runway, if_neg hs, h1]
  · simp only [parse_landing_runway, if_neg hs, h1, h2]
  · simp only [parse_landing_runway, if_neg hs, h1, h2, h3]
  · simp only [parse_landing_runway, if_neg hs, h1, h2, h3]
  · simp only [parse_departure_runway, if_neg hs]

/-- C5 witness: `LND RY 04` is matched by pattern 1. -/
theorem C5_pattern_priority_witness :
    parse_landing_runway "LND RY 04" = some "04" :=
  (C5_pattern_priority "LND RY 04" (by decide)).1 "04" (by decide)

/-- The search loop returns exactly the parse of the first candidate entry
in feed order. -/
theorem find_flight_loop_eq (entries : List (String × FeedVal)) :
    find_flight_loop entries = (entries.find? is_candidate).bind candidate_record := by
  induction entries with
  | nil => rfl
  | cons e rest ih =>
    obtain ⟨fid, v⟩ := e
    cases v with
    | scalar =>
      have hskip : find_flight_loop ((fid, FeedVal.scalar) :: rest) = find_flight_loop rest := by
        conv_lhs => unfold find_flight_loop
        split <;> rfl
      have hcand : ¬ (is_candidate (fid, FeedVal.scalar) = true) := by
        simp [is_candidate]
      rw [hskip, ih, List.find?_cons_of_neg _ hcand]
    | arr fs =>
      by_cases h1 : fid ≠ "version" ∧ fid ≠ "full_count"
      · by_cases h2 : fs.length ≥ 13
        · by_cases h3 : fieldLtInt (fs.getD 4 (.num 0)) MAX_APPROACH_ALTITUDE = true
          · cases hp : parse_flight_data fid fs with
            | some fd =>
              have hcand : is_candidate (fid, FeedVal.arr fs) = true := by
                simp only [is_candidate, Bool.and_eq_true, decide_eq_true_iff]
                refine ⟨⟨⟨⟨h1.1, h1.2⟩, h2⟩, h3⟩, ?_⟩
                rw [hp]
                rfl
              rw [List.find?_cons_of_pos _ hcand]
              conv_lhs => unfold find_flight_loop
              rw [if_pos h1]
              dsimp only
              rw [if_pos h2, if_pos h3, hp]
              simp only [Option.some_bind, candidate_record, hp]
            | none =>
              have hcand : ¬ (is_candidate (fid, FeedVal.arr fs) = true) := by
                simp only [is_candidate, Bool.and_eq_true, decide_eq_true_iff]
                rintro ⟨⟨⟨⟨-, -⟩, -⟩, -⟩, hs⟩
                rw [hp] at hs
                exact Bool.noConfusion hs
              have hskip : find_flight_loop ((fid, FeedVal.arr fs) :: rest) = find_flight_loop rest := by
                conv_lhs => unfold find_flight_loop
                rw [if_pos h1]
                dsimp only
                rw [if_pos h2, if_pos h3, hp]
              rw [hskip, ih, List.find?_cons_of_neg _ hcand]
          · have hcand : ¬ (is_candidate (fid, FeedVal.arr fs) = true) := by
              simp only [is_candidate, Bool.and_eq_true, decide_eq_true_iff]
              rintro ⟨⟨⟨⟨-, -⟩, -⟩, hd⟩, -⟩
              exact h3 hd
            have hskip : find_flight_loop ((fid, FeedVal.arr fs) :: rest) = find_flight_loop rest := by
              conv_lhs => unfold find_flight_loop
              rw [if_pos h1]
              dsimp only
              rw [if_pos h2, if_neg h3]
            rw [hskip, ih, List.find?_cons_of_neg _ hcand]
        · have hcand : ¬ (is_candidate (fid, FeedVal.arr fs) = true) := by
            simp only [is_candidate, Bool.and_eq_true, decide_eq_true_iff]
            rintro ⟨⟨⟨⟨-, -⟩, hc⟩, -⟩, -⟩
            exact h2 hc
          have hskip : find_flight_loop ((fid, FeedVal.arr fs) :: rest) = find_flight_loop rest := by
            conv_lhs => unfold find_flight_loop
            rw [if_pos h1]
            dsimp only
            rw [if_neg h2]
          rw [hskip, ih, List.find?_cons_of_neg _ hcand]
      · have hcand : ¬ (is_candidate (fid, FeedVal.arr fs) = true) := by
          simp only [is_candidate, Bool.and_eq_true, decide_eq_true_iff]
          rintro ⟨⟨⟨⟨ha, hb⟩, -⟩, -⟩, -⟩
          exact h1 ⟨ha, hb⟩
        have hskip : find_flight_loop ((fid, FeedVal.arr fs) :: rest) = find_flight_loop rest := by
          conv_lhs => unfold find_flight_loop
          rw [if_neg h1]
        rw [hskip, ih, List.find?_cons_of_neg _ hcand]

/-- C6: over a decoded 200 response, `get_runway_04_flights` returns the
record parsed from the first entry in upstream feed order that is not a
reserved metadata key, is a positional array of at least 13 fields, has
field 4 below the 5000 ft altitude cap, and whose parse succeeds — which an
exactly-13-field entry never does, since its extraction raises IndexError
at field 13 and the entry is skipped; if no entry across the whole feed
qualifies, it returns `none`.  (`is_candidate` is exactly the loop's
effective test; `candidate_record` is the parse.) -/
theorem C6_first_match (entries : List (String × FeedVal)) :
    (entries.find? is_candidate = none →
      get_runway_04_flights (.ok 200 entries) = none) ∧
    (∀ e, entries.find? is_candidate = some e →
      get_runway_04_flights (.ok 200 entries) = candidate_record e ∧
      (candidate_record e).isSome = true) := by
  have hget : get_runway_04_flights (.ok 200 entries) = find_flight_loop entries := by
    simp [get_runway_04_flights]
  constructor
  · intro hnone
    rw [hget, find_flight_loop_eq, hnone]
    rfl
  · intro e he
    have hc : is_candidate e = true := List.find?_some he
    constructor
    · rw [hget, find_flight_loop_eq, he]
      rfl
    · obtain ⟨fid, v⟩ := e
      cases v with
      | scalar => exact absurd hc (by simp [is_candidate])
      | arr fs =>
        simp only [is_candidate, Bool.and_eq_true] at hc
        simpa [candidate_record] using hc.2

/-- C6 counterexample: a feed whose only entry is a positional array of
exactly 13 fields with altitude below the cap passes every check the claim
lists (not a reserved key, a positional array, at least 13 fields,
altitude < 5000), yet `get_runway_04_flights` returns `none` instead of
that entry's parsed record: extraction raises IndexError at field 13 and
the entry is skipped. -/
theorem C6_counterexample :
    (decide (("abc" : String) ≠ "version") && decide (("abc" : String) ≠ "full_count") &&
      decide (sampleFields13.length ≥ 13) &&
      fieldLtInt (sampleFields13.getD 4 (.num 0)) MAX_APPROACH_ALTITUDE) = true ∧
    get_runway_04_flights (.ok 200 [("abc", .arr sampleFields13)]) = none := by
  decide

/-- C6 witness: a feed with a reserved key followed by one valid 14-field
entry returns that entry's parsed record. -/
theorem C6_first_match_witness :
    get_runway_04_flights (.ok 200 sampleEntries) =
      candidate_record ("abc", FeedVal.arr sampleFields14) ∧
    (candidate_record ("abc", FeedVal.arr sampleFields14)).isSome = true :=
  (C6_first_match sampleEntries).2 ("abc", FeedVal.arr sampleFields14) (by decide)

/-- C7 counterexample: two concrete divergences from the claim as stated.
On a 17-field entry whose field 16 is the empty string while field 13 is
`"DAL123"`, the code produces callsign `"Unknown"`, whereas the claimed rule
("field 16 if present else field 13, defaulting to Unknown if both are
empty") selects field 16 and keeps the empty string.  And on an entry of
exactly 13 fields, for which the claim asserts field extraction produces a
record, the code raises IndexError at field 13 and produces no record at
all. -/
theorem C7_callsign_counterexample :
    sampleFields17.length = 17 ∧
    (parse_flight_data "abc123" sampleFields17).map (fun fd => fd.callsign) =
      some (.str "Unknown") ∧
    callsign_claimed sampleFields17 = .str "" ∧
    Field.str "Unknown" ≠ Field.str "" ∧
    sampleFields13.length = 13 ∧
    parse_flight_data "abc123" sampleFields13 = none := by
  decide

/-- C7 (amended): an entry with fewer than 13 fields parses to `none`; an
entry with exactly 13 fields raises IndexError at field 13 during extraction
and also parses to `none`; for an entry of at least 14 fields extraction
takes altitude from field 4, speed from field 5, aircraft type from field 8,
origin from field 11, destination from field 12, and callsign from field 16
if the entry has more than 16 fields else from field 13 — substituting
`"Unknown"` whenever the selected callsign value is empty/falsy (field 13 is
never consulted when field 16 exists); any entry whose parse is `none` is
skipped by the search loop rather than aborting it. -/
theorem C7_field_extraction (flight_id : String) (fs : List Field) :
    (fs.length < 13 → parse_flight_data flight_id fs = none) ∧
    (fs.length = 13 → parse_flight_data flight_id fs = none) ∧
    (14 ≤ fs.length →
      parse_flight_data flight_id fs = some
        { flight_id := flight_id
          callsign :=
            if fieldFalsy (if fs.length > 16 then fs.getD 16 .null else fs.getD 13 .null)
            then .str "Unknown"
            else if fs.length > 16 then fs.getD 16 .null else fs.getD 13 .null
          aircraft_type := fs.getD 8 .null
          altitude := fs.getD 4 .null
          speed := fs.getD 5 .null
          origin := fs.getD 11 .null
          destination := fs.getD 12 .null
          route := pyStr (fs.getD 11 .null) ++ " → " ++ pyStr (fs.getD 12 .null) }) ∧
    (parse_flight_data flight_id fs = none →
      ∀ rest, find_flight_loop ((flight_id, .arr fs) :: rest) =
        find_flight_loop rest) := by
  refine ⟨fun h => ?_, fun h => ?_, fun h => ?_, fun hp rest => ?_⟩
  · simp only [parse_flight_data]
    rw [if_pos h]
  · have hn : ¬ fs.length < 13 := by omega
    have h16 : ¬ fs.length > 16 := by omega
    have h13 : ¬ fs.length > 13 := by omega
    simp only [parse_flight_data]
    rw [if_neg hn, if_neg h16, if_neg h13]
  · have hn : ¬ fs.length < 13 := by omega
    have h8 : fs.length > 8 := by omega
    have h11 : fs.length > 11 := by omega
    have h12 : fs.length > 12 := by omega
    by_cases h16 : fs.length > 16
    · simp only [parse_flight_data]
      rw [if_neg hn, if_pos h16]
      dsimp only
      rw [if_pos h8, if_pos h11, if_pos h12, if_pos h16]
    · have h13 : fs.length > 13 := by omega
      simp only [parse_flight_data]
      rw [if_neg hn, if_neg h16, if_pos h13]
      dsimp only
      rw [if_pos h8, if_pos h11, if_pos h12, if_neg h16]
  · conv_lhs => unfold find_flight_loop
    split
    · dsimp only
      by_cases h2 : fs.length ≥ 13
      · rw [if_pos h2]
        by_cases h3 : fieldLtInt (fs.getD 4 (.num 0)) MAX_APPROACH_ALTITUDE = true
        · rw [if_pos h3, hp]
        · rw [if_neg h3]
      · rw [if_neg h2]
    · rfl

/-- C7 witness for the amended theorem: extraction on the concrete 17-field
array. -/
theorem C7_field_extraction_witness :
    parse_flight_data "abc123" sampleFields17 = some
      { flight_id := "abc123", callsign := .str "Unknown",
        aircraft_type := .str "A320", altitude := .num 3500, speed := .num 180,
        origin := .str "ORD", destination := .str "LGA", route := "ORD → LGA" } := by
  rw [(C7_field_extraction "abc123" sampleFields17).2.2.1 (by decide)]
  decide

/-- C8: in `_handle_flight_display`, a cycle whose flight id equals the
remembered id while the previous cycle was already in flight mode issues no
render call at all and leaves the app state unchanged; any other flight
cycle issues exactly one redraw of the flight display (a clear followed by
one `show_flight_info`) and updates the remembered id and mode. -/
theorem C8_redraw_suppression (app : AppState) (dd : DisplayData) :
    ((dd.flight.map fun fd => fd.flight_id) = app.last_flight_id ∧
        app.current_display_mode = some "flight" →
      handle_flight_display app dd = (app, [])) ∧
    (¬ ((dd.flight.map fun fd => fd.flight_id) = app.last_flight_id ∧
        app.current_display_mode = some "flight") →
      handle_flight_display app dd =
        (⟨dd.flight.map fun fd => fd.flight_id, some "flight"⟩,
          [.clearDisplay, .showFlightInfo (dd.flight.map fun fd => fd.flight_id)]) ∧
      ((handle_flight_display app dd).2.countP isShowFlight) = 1) := by
  constructor
  · intro h
    simp only [handle_flight_display]
    rw [if_pos h]
  · intro h
    have heq : handle_flight_display app dd =
        (⟨dd.flight.map fun fd => fd.flight_id, some "flight"⟩,
          [.clearDisplay, .showFlightInfo (dd.flight.map fun fd => fd.flight_id)]) := by
      simp only [handle_flight_display]
      rw [if_neg h]
    refine ⟨heq, ?_⟩
    rw [heq]
    simp [List.countP_cons, isShowFlight]

/-- C8 witness: the first flight cycle from a fresh app state issues exactly
one flight redraw. -/
theorem C8_redraw_suppression_witness :
    handle_flight_display ⟨none, none⟩ sampleFlightDD =
      (⟨some "bbb", some "flight"⟩,
        [.clearDisplay, .showFlightInfo (some "bbb")]) ∧
    ((handle_flight_display ⟨none, none⟩ sampleFlightDD).2.countP isShowFlight) = 1 :=
  (C8_redraw_suppression ⟨none, none⟩ sampleFlightDD).2 (by decide)

end FlightPortal
